import Mathlib

/-!
Shallow embedding of the askadb dashboard core (auto-charting engine and
chart-config generator) together with proofs about the behaviour its
specification describes.  Scalar JavaScript values are modelled by an
inductive type, JavaScript numbers by rationals with an explicit NaN
(Option none), rows by ordered association lists, and the engine's
functions are translated one by one from the TypeScript source.
-/

namespace Askadb

/-- Checking whether the character list pat occurs at the head of a list. -/
def charsAtHead : List Char → List Char → Bool
  | [], _ => true
  | _ :: _, [] => false
  | p :: ps, c :: cs => p == c && charsAtHead ps cs

/-- Checking whether pat occurs somewhere inside the haystack character list. -/
def charsSub (pat : List Char) : List Char → Bool
  | [] => pat.isEmpty
  | c :: cs => charsAtHead pat (c :: cs) || charsSub pat cs

/-- Model of the JavaScript string method includes: containsStr s pat is true
when pat occurs as a contiguous substring of s. -/
def containsStr (s pat : String) : Bool :=
  charsSub pat.toList s.toList

/-- ASCII lower-casing of one character, the fragment of the JavaScript
toLowerCase relevant to the keyword and column-name matching of the source. -/
def charLower (c : Char) : Char :=
  if 65 ≤ c.toNat ∧ c.toNat ≤ 90 then Char.ofNat (c.toNat + 32) else c

/-- Lower-casing of a string, character by character. -/
def jsToLower (s : String) : String :=
  String.mk (s.data.map charLower)

/-- Whitespace trimming on both ends of a character list. -/
def charsTrim (l : List Char) : List Char :=
  ((l.dropWhile Char.isWhitespace).reverse.dropWhile Char.isWhitespace).reverse

/-- Scalar value of a dataset cell: a JSON scalar or an absent (undefined) entry. -/
inductive Value where
  | str (s : String)
  | num (q : ℚ)
  | bool (b : Bool)
  | absent
deriving DecidableEq, Repr

/-- Row of the dataset: ordered mapping from column names to scalar values,
as in the TypeScript DataPoint type. -/
def Row := List (String × Value)
deriving DecidableEq, Repr

/-- Property access row[c]: the value stored under the column name, or absent. -/
def rowGet (row : Row) (c : String) : Value :=
  match row.find? (fun p => p.1 == c) with
  | some p => p.2
  | none => Value.absent

/-- Object.keys of the first row, the column-name list of the dataset. -/
def rowKeys : List Row → List String
  | [] => []
  | r :: _ => (r : List (String × Value)).map (fun p => p.1)

/-- Digit list to a natural number, failing on non-digits. -/
def digitsVal : List Char → Option ℕ
  | [] => some 0
  | c :: cs =>
    if c.isDigit then
      match digitsVal cs with
      | some n => some (n * 10 + (c.toNat - 48))
      | none => none
    else none

/-- Value of a digit list read left to right. -/
def decValue (l : List Char) : ℕ :=
  l.foldl (fun acc c => acc * 10 + (c.toNat - 48)) 0

/-- Decimal fragment of the JavaScript Number conversion on strings: the empty
or all-whitespace string converts to 0, an optionally signed decimal literal
(digits, optional fraction part) converts to its value, and anything else is
NaN, rendered here as none.  Exponent, hexadecimal and Infinity forms of the
full JavaScript grammar are outside the fragment and also map to none. -/
def jsNumberOfString (s : String) : Option ℚ :=
  let t := charsTrim s.data
  if t.isEmpty then some 0
  else
    let signed : ℤ × List Char :=
      match t with
      | '+' :: r => (1, r)
      | '-' :: r => (-1, r)
      | r => (1, r)
    let sign := signed.1
    let body := signed.2
    let intPart := body.takeWhile (fun c => c.isDigit)
    let rest := body.dropWhile (fun c => c.isDigit)
    match rest with
    | [] =>
      if intPart.isEmpty then none
      else some ((sign : ℚ) * (decValue intPart : ℚ))
    | '.' :: frac =>
      if frac.all (fun c => c.isDigit) && !(intPart.isEmpty && frac.isEmpty) then
        some ((sign : ℚ) *
          ((decValue intPart : ℚ) + (decValue frac : ℚ) / ((10 : ℚ) ^ frac.length)))
      else none
    | _ => none

/-- Decimal rendering of a rational used to model the JavaScript String
conversion of a number; exact for integers, which is the only numeric shape
the verified scenarios feed through label building. -/
def jsStringOfRat (q : ℚ) : String :=
  if q.den = 1 then toString q.num
  else toString q.num ++ "/" ++ toString q.den

/-- JavaScript String conversion of a scalar value. -/
def jsStringOfValue : Value → String
  | Value.str s => s
  | Value.num q => jsStringOfRat q
  | Value.bool b => if b then "true" else "false"
  | Value.absent => "undefined"

/-- JavaScript Number conversion of a scalar value, none standing for NaN. -/
def jsNumberOfValue : Value → Option ℚ
  | Value.str s => jsNumberOfString s
  | Value.num q => some q
  | Value.bool b => if b then some 1 else some 0
  | Value.absent => none

/-- JavaScript falsiness of a scalar value (0, empty string, false, undefined). -/
def jsFalsy : Value → Bool
  | Value.str s => s == ""
  | Value.num q => decide (q = 0)
  | Value.bool b => !b
  | Value.absent => true

/-- Semantic column types of the classifier, the closed ColumnType set. -/
inductive ColumnType where
  | string
  | number
  | date
  | boolean
deriving DecidableEq, Repr

/-- Month substrings recognised by detectColumnType (Portuguese abbreviations
and full English month names). -/
def monthSubstrings : List String :=
  ["jan", "fev", "mar", "abr", "mai", "jun", "jul", "ago", "set", "out",
   "nov", "dez", "january", "february", "march", "april", "may", "june",
   "july", "august", "september", "october", "november", "december"]

/-- Fragment of the JavaScript Date constructor used by the classifier: a
string of the shape four digits, dash, two digits, dash, two digits parses as
a calendar date; other shapes of the very permissive builtin grammar are
outside the fragment and count as unparseable. -/
def looksIsoDate (s : String) : Bool :=
  match s.toList with
  | [a, b, c, d, '-', e, f, '-', g, h] =>
    a.isDigit && b.isDigit && c.isDigit && d.isDigit &&
    e.isDigit && f.isDigit && g.isDigit && h.isDigit
  | _ => false

/-- Numeric test of detectColumnType: a number, or a string whose Number
conversion is not NaN. -/
def isNumericish : Value → Bool
  | Value.num _ => true
  | Value.str s => (jsNumberOfString s).isSome
  | _ => false

/-- Boolean test of detectColumnType: a boolean, or the literal strings
true and false. -/
def isBooleanish : Value → Bool
  | Value.bool _ => true
  | Value.str s => s == "true" || s == "false"
  | _ => false

/-- Date test of detectColumnType: a string containing a month-name substring
(case-insensitive) or otherwise parseable as a date. -/
def isDateish : Value → Bool
  | Value.str s =>
    monthSubstrings.any (fun m => containsStr (jsToLower s) m) || looksIsoDate s
  | _ => false

/-- Sampled values of a column: the first 10 rows' entries. -/
def sampleOf (data : List Row) (column : String) : List Value :=
  (data.take 10).map (fun row => rowGet row column)

/-- Translation of detectColumnType: sample the first 10 rows of the column
and classify in the order number, boolean, date, string, first match winning. -/
def detectColumnType (data : List Row) (column : String) : ColumnType :=
  let sampleValues := sampleOf data column
  if sampleValues.all isNumericish then ColumnType.number
  else if sampleValues.all isBooleanish then ColumnType.boolean
  else if sampleValues.all isDateish then ColumnType.date
  else ColumnType.string

/-- Derived dataset-level snapshot, the DataStructure interface. -/
structure DataStructure where
  hasTimeSeries : Bool
  hasCategories : Bool
  hasNumericalComparison : Bool
  hasGeographicData : Bool
  columnTypes : List (String × ColumnType)
  rowCount : ℕ
  columnCount : ℕ
deriving DecidableEq, Repr

/-- Lookup in the columnTypes mapping; a missing column has no type. -/
def typeOf (ds : DataStructure) (c : String) : Option ColumnType :=
  match ds.columnTypes.find? (fun p => p.1 == c) with
  | some p => some p.2
  | none => none

/-- Translation of detectTimeSeries: some column typed date, or some column
name containing month, date or time. -/
def detectTimeSeries (columnTypes : List (String × ColumnType)) : Bool :=
  (columnTypes.filter (fun p => p.2 == ColumnType.date)).length > 0 ||
  ((columnTypes.map (fun p => p.1)).filter (fun col =>
    containsStr (jsToLower col) "month" || containsStr (jsToLower col) "date" ||
    containsStr (jsToLower col) "time")).length > 0

/-- Count of distinct values stored under a column, the Set size used by
uniqueCount and detectCategories. -/
def uniqueCount (data : List Row) (column : String) : ℕ :=
  ((data.map (fun row => rowGet row column)).dedup).length

/-- Translation of detectCategories: some string-typed column with a
distinct-value count in the interval from 2 to 20. -/
def detectCategories (data : List Row) (columnTypes : List (String × ColumnType)) : Bool :=
  ((columnTypes.filter (fun p => p.2 == ColumnType.string)).map (fun p => p.1)).any
    (fun column => uniqueCount data column > 1 && uniqueCount data column ≤ 20)

/-- Translation of detectNumericalComparison: at least two number-typed columns. -/
def detectNumericalComparison (columnTypes : List (String × ColumnType)) : Bool :=
  (columnTypes.filter (fun p => p.2 == ColumnType.number)).length ≥ 2

/-- Translation of detectGeographicData: some column name containing region,
country, state, city or location. -/
def detectGeographicData (columnTypes : List (String × ColumnType)) : Bool :=
  ((columnTypes.map (fun p => p.1)).filter (fun col =>
    containsStr (jsToLower col) "region" || containsStr (jsToLower col) "country" ||
    containsStr (jsToLower col) "state" || containsStr (jsToLower col) "city" ||
    containsStr (jsToLower col) "location")).length > 0

/-- Translation of analyzeDataStructure: the all-false empty snapshot for an
empty dataset, and otherwise the per-column classification plus the four
derived signals. -/
def analyzeDataStructure (data : List Row) : DataStructure :=
  match data with
  | [] =>
    { hasTimeSeries := false, hasCategories := false,
      hasNumericalComparison := false, hasGeographicData := false,
      columnTypes := [], rowCount := 0, columnCount := 0 }
  | _ =>
    let columns := rowKeys data
    let columnTypes := columns.map (fun c => (c, detectColumnType data c))
    { hasTimeSeries := detectTimeSeries columnTypes,
      hasCategories := detectCategories data columnTypes,
      hasNumericalComparison := detectNumericalComparison columnTypes,
      hasGeographicData := detectGeographicData columnTypes,
      columnTypes := columnTypes,
      rowCount := data.length,
      columnCount := columns.length }

end Askadb

namespace Askadb

/-- Closed set of chart types. -/
inductive ChartType where
  | bar_chart
  | line_chart
  | pie_chart
  | area_chart
  | scatter_plot
  | horizontal_bar
  | table
  | map
deriving DecidableEq, Repr

/-- One named data series of a chart configuration: its label, its data
sequence (none standing for a JavaScript null entry) and the optional
secondary-axis binding.  Colour and styling fields of the source carry no
decision logic and are not part of the embedding. -/
structure ChartDataset where
  label : String
  data : List (Option ℚ)
  yAxisID : Option String := none
deriving DecidableEq, Repr

/-- Label sequence and series list of a chart configuration. -/
structure ChartData where
  labels : List String
  datasets : List ChartDataset
deriving DecidableEq, Repr

/-- KPI metadata card of the growth enrichment; the source renders the two
deltas into a display string, the embedding keeps the numbers themselves. -/
structure MetaCard where
  ctype : String
  deltaAbs : ℚ
  deltaPct : Option ℚ
deriving DecidableEq, Repr

/-- Renderable chart configuration: type tag, data block and metadata cards.
Display options (titles, legend, axis and tooltip settings) carry no decision
logic tested by the claims and are not part of the embedding. -/
structure ChartConfig where
  type : ChartType
  data : ChartData
  cards : List MetaCard := []
deriving DecidableEq, Repr

/-- For loop with early return over column names: the first column satisfying
the test. -/
def firstSat (p : String → Bool) : List String → Option String
  | [] => none
  | c :: cs => if p c then some c else firstSat p cs

/-- Category test of the first loop of findCategoryColumn: typed date, or
name containing month, date or time. -/
def isTimeLikeColumn (ds : DataStructure) (c : String) : Bool :=
  typeOf ds c == some ColumnType.date || containsStr (jsToLower c) "month" ||
  containsStr (jsToLower c) "date" || containsStr (jsToLower c) "time"

/-- Translation of findCategoryColumn from the chart generator: first the
date-typed or month/date/time-named columns, then the string-typed columns,
then the first column, then the empty string. -/
def findCategoryColumn (data : List Row) (ds : DataStructure) : String :=
  let columns := rowKeys data
  match firstSat (isTimeLikeColumn ds) columns with
  | some c => c
  | none =>
    match firstSat (fun c => typeOf ds c == some ColumnType.string) columns with
    | some c => c
    | none => columns.headD ""

/-- Translation of findValueColumn from the chart generator: the first
number-typed column, else the second column, else the first, else the empty
string (JavaScript falsiness makes an empty-string second name fall through). -/
def findValueColumn (data : List Row) (ds : DataStructure) : String :=
  let columns := rowKeys data
  match firstSat (fun c => typeOf ds c == some ColumnType.number) columns with
  | some c => c
  | none =>
    let second := columns.getD 1 ""
    if second == "" then columns.headD "" else second

/-- Grouping key of a row: the JavaScript String form of the category value,
with an absent value replaced by the empty string. -/
def keyOfRow (c : String) (row : Row) : String :=
  match rowGet row c with
  | Value.absent => ""
  | v => jsStringOfValue v

/-- Summand of a row: the JavaScript Number form of the value-column value,
with an absent value replaced by 0; none stands for NaN. -/
def valOfRow (c : String) (row : Row) : Option ℚ :=
  match rowGet row c with
  | Value.absent => some 0
  | v => jsNumberOfValue v

/-- One Map.set step of aggregateByCategory: the stored accumulator is read
back through a falsy-to-zero guard (so a NaN accumulator restarts at 0) and
the incoming summand is added, NaN absorbing the whole sum. -/
def updateTotals : List (String × Option ℚ) → String → Option ℚ → List (String × Option ℚ)
  | [], key, v => [(key, v.map (fun x => 0 + x))]
  | (k, o) :: rest, key, v =>
    if k == key then (k, v.map (fun x => o.getD 0 + x)) :: rest
    else (k, o) :: updateTotals rest key v

/-- Insertion-ordered totals map of aggregateByCategory. -/
def aggTotals (data : List Row) (categoryColumn valueColumn : String) :
    List (String × Option ℚ) :=
  data.foldl (fun t row => updateTotals t (keyOfRow categoryColumn row) (valOfRow valueColumn row)) []

/-- Translation of aggregateByCategory: group rows by the string form of the
category value, sum the number form of the value per group, and read the
totals back with a falsy-to-zero guard that turns a NaN total into 0. -/
def aggregateByCategory (data : List Row) (categoryColumn valueColumn : String) :
    List String × List ℚ :=
  let totals := aggTotals data categoryColumn valueColumn
  (totals.map (fun p => p.1), totals.map (fun p => p.2.getD 0))

/-- English month-name order list of sortLabelsIfMonth, full names followed by
the four abbreviations the source happens to list. -/
def monthOrderEn : List String :=
  ["january", "february", "march", "april", "may", "june", "july", "august",
   "september", "october", "november", "december", "jan", "feb", "mar", "apr"]

/-- Portuguese month-name order list of sortLabelsIfMonth. -/
def monthOrderPt : List String :=
  ["janeiro", "fevereiro", "março", "abril", "maio", "junho", "julho",
   "agosto", "setembro", "outubro", "novembro", "dezembro"]

/-- Sort key of sortLabelsIfMonth: position in the Portuguese list, else in
the English list, else 999 for non-months. -/
def monthIdx (name : String) : ℕ :=
  let lower := jsToLower name
  match monthOrderPt.findIdx? (fun m => m == lower) with
  | some i => i
  | none =>
    match monthOrderEn.findIdx? (fun m => m == lower) with
    | some i => i
    | none => 999

/-- Stable insertion into a key-sorted list: the element passes items with a
strictly smaller key and lands before the first item whose key is at least
its own, so earlier elements keep their place among equal keys. -/
def insKey {α β : Type} [LinearOrder β] (key : α → β) (x : α) : List α → List α
  | [] => [x]
  | y :: ys => if key y < key x then y :: insKey key x ys else x :: y :: ys

/-- Stable sort by key, modelling the stable JavaScript Array sort with a
numeric comparator on the key. -/
def sortKeyed {α β : Type} [LinearOrder β] (key : α → β) : List α → List α
  | [] => []
  | x :: xs => insKey key x (sortKeyed key xs)

/-- Translation of sortLabelsIfMonth: when no label is a known month name the
pair lists are returned unchanged, otherwise the label/value pairs are stably
sorted by month key, non-months keyed 999 moving after the months.  The two
lists have equal length at every call site, which the zip-based pairing
assumes. -/
def sortLabelsIfMonth (labels : List String) (values : List ℚ) :
    List String × List ℚ :=
  if labels.all (fun l => monthIdx l == 999) then (labels, values)
  else
    let sortedPairs := sortKeyed (fun p => monthIdx p.1) (labels.zip values)
    (sortedPairs.map (fun p => p.1), sortedPairs.map (fun p => p.2))

/-- Translation of generateBarChartConfig: aggregate by category, reorder
month labels, emit one series named after the value column. -/
def generateBarChartConfig (data : List Row) (ds : DataStructure) : ChartConfig :=
  let categoryColumn := findCategoryColumn data ds
  let valueColumn := findValueColumn data ds
  let agg := aggregateByCategory data categoryColumn valueColumn
  let sorted := sortLabelsIfMonth agg.1 agg.2
  { type := ChartType.bar_chart,
    data := { labels := sorted.1,
              datasets := [{ label := valueColumn, data := sorted.2.map some }] } }

/-- Translation of generateLineChartConfig, sharing the aggregation and month
reordering of the bar builder. -/
def generateLineChartConfig (data : List Row) (ds : DataStructure) : ChartConfig :=
  let categoryColumn := findCategoryColumn data ds
  let valueColumn := findValueColumn data ds
  let agg := aggregateByCategory data categoryColumn valueColumn
  let sorted := sortLabelsIfMonth agg.1 agg.2
  { type := ChartType.line_chart,
    data := { labels := sorted.1,
              datasets := [{ label := valueColumn, data := sorted.2.map some }] } }

/-- Translation of generatePieChartConfig: aggregation without month
reordering. -/
def generatePieChartConfig (data : List Row) (ds : DataStructure) : ChartConfig :=
  let categoryColumn := findCategoryColumn data ds
  let valueColumn := findValueColumn data ds
  let agg := aggregateByCategory data categoryColumn valueColumn
  { type := ChartType.pie_chart,
    data := { labels := agg.1,
              datasets := [{ label := valueColumn, data := agg.2.map some }] } }

/-- Translation of generateAreaChartConfig, sharing the aggregation and month
reordering of the bar builder. -/
def generateAreaChartConfig (data : List Row) (ds : DataStructure) : ChartConfig :=
  let categoryColumn := findCategoryColumn data ds
  let valueColumn := findValueColumn data ds
  let agg := aggregateByCategory data categoryColumn valueColumn
  let sorted := sortLabelsIfMonth agg.1 agg.2
  { type := ChartType.area_chart,
    data := { labels := sorted.1,
              datasets := [{ label := valueColumn, data := sorted.2.map some }] } }

/-- Translation of generateHorizontalBarChartConfig: aggregation without
month reordering. -/
def generateHorizontalBarChartConfig (data : List Row) (ds : DataStructure) : ChartConfig :=
  let categoryColumn := findCategoryColumn data ds
  let valueColumn := findValueColumn data ds
  let agg := aggregateByCategory data categoryColumn valueColumn
  { type := ChartType.horizontal_bar,
    data := { labels := agg.1,
              datasets := [{ label := valueColumn, data := agg.2.map some }] } }

/-- Translation of generateScatterPlotConfig: one label/value entry per row,
the label being the string form of the category value (falsy values giving
the empty string) and the value the number form of the value-column value
(falsy values giving 0, NaN kept as none). -/
def generateScatterPlotConfig (data : List Row) (ds : DataStructure) : ChartConfig :=
  let categoryColumn := findCategoryColumn data ds
  let valueColumn := findValueColumn data ds
  let labels := data.map (fun row =>
    if jsFalsy (rowGet row categoryColumn) then "" else jsStringOfValue (rowGet row categoryColumn))
  let values := data.map (fun row =>
    if jsFalsy (rowGet row valueColumn) then some (0 : ℚ) else jsNumberOfValue (rowGet row valueColumn))
  { type := ChartType.scatter_plot,
    data := { labels := labels,
              datasets := [{ label := valueColumn, data := values }] } }

/-- Translation of generateTableConfig: column names as labels and the row
indices as the single series. -/
def generateTableConfig (data : List Row) (_ds : DataStructure) : ChartConfig :=
  { type := ChartType.table,
    data := { labels := rowKeys data,
              datasets := [{ label := "Dados",
                             data := (List.range data.length).map (fun i => some (i : ℚ)) }] } }

/-- Translation of generateChartConfig: dispatch on the chart type, the map
type falling through to the bar builder by the switch default. -/
def generateChartConfig (chartType : ChartType) (data : List Row) (ds : DataStructure) : ChartConfig :=
  match chartType with
  | ChartType.bar_chart => generateBarChartConfig data ds
  | ChartType.line_chart => generateLineChartConfig data ds
  | ChartType.pie_chart => generatePieChartConfig data ds
  | ChartType.area_chart => generateAreaChartConfig data ds
  | ChartType.horizontal_bar => generateHorizontalBarChartConfig data ds
  | ChartType.scatter_plot => generateScatterPlotConfig data ds
  | ChartType.table => generateTableConfig data ds
  | ChartType.map => generateBarChartConfig data ds

end Askadb

namespace Askadb

/-- Deduplication via the JavaScript Set spread: keep the first occurrence of
every element, preserving order; the seen accumulator holds earlier elements. -/
def dedupAux {α : Type} [DecidableEq α] (seen : List α) : List α → List α
  | [] => []
  | x :: xs => if x ∈ seen then dedupAux seen xs else x :: dedupAux (x :: seen) xs

/-- First-seen-order deduplication of a list. -/
def dedupFirst {α : Type} [DecidableEq α] (l : List α) : List α :=
  dedupAux [] l

/-- Rounding to two decimals, the toFixed(2)-and-reparse step of the source:
nearest hundredth, halves away from the smaller value. -/
def round2 (q : ℚ) : ℚ :=
  ((round (q * 100) : ℤ) : ℚ) / 100

/-- Keyword test: the lower-cased question contains one of the keywords. -/
def qIncludes (q : String) (ks : List String) : Bool :=
  ks.any (fun k => containsStr q k)

/-- Growth-intent keyword list of suggestCharts and getSuggestedChartTypes. -/
def asksGrowthSel (q : String) : Bool :=
  qIncludes q ["crescimento", "growth", "variação", "evolução", "aumento",
               "queda", "diferença", "comparar mês", "comparar mes"]

/-- Distribution-intent keyword list. -/
def asksDistributionQ (q : String) : Bool :=
  qIncludes q ["proporção", "proporcao", "distribuição", "percentual",
               "participação", "participacao"]

/-- Trend-intent keyword list. -/
def asksTrendQ (q : String) : Bool :=
  qIncludes q ["tendência", "tendencia", "ao longo", "timeline"]

/-- Ranking-intent keyword list of the selector. -/
def asksRankingSel (q : String) : Bool :=
  qIncludes q ["top", "ranking", "maiores", "menores", "ordenar"]

/-- Correlation-intent keyword list. -/
def asksCorrelationQ (q : String) : Bool :=
  qIncludes q ["correlação", "correlacao", "relação", "relacao", "impacto",
               "influência", "influencia"]

/-- String-typed column names of the snapshot, in column order. -/
def stringColumnsOf (ds : DataStructure) : List String :=
  (ds.columnTypes.filter (fun p => p.2 == ColumnType.string)).map (fun p => p.1)

/-- Number-typed column names of the snapshot, in column order. -/
def numberColumnsOf (ds : DataStructure) : List String :=
  (ds.columnTypes.filter (fun p => p.2 == ColumnType.number)).map (fun p => p.1)

/-- Date-like column names: typed date or named with month, date or time. -/
def dateLikeColumnsOf (ds : DataStructure) : List String :=
  (ds.columnTypes.map (fun p => p.1)).filter (fun c =>
    typeOf ds c == some ColumnType.date || containsStr (jsToLower c) "month" ||
    containsStr (jsToLower c) "date" || containsStr (jsToLower c) "time")

/-- Categorical candidates: string-typed columns with 2 to 20 distinct values. -/
def categoryCandidatesOf (data : List Row) (ds : DataStructure) : List String :=
  (stringColumnsOf ds).filter (fun c =>
    uniqueCount data c ≥ 2 && uniqueCount data c ≤ 20)

/-- Signal bundle handed to getSuggestedChartTypes; the dataStructure member
of the source context object is destructured but never read in the selector
body, so it is not part of the bundle. -/
structure SelectorContext where
  question : String
  hasCategory : Bool
  categoryUniqueCount : ℕ
  hasTime : Bool
  hasTwoNumbers : Bool
  hasTwoCategories : Bool
deriving DecidableEq, Repr

/-- Fallback step of getSuggestedChartTypes: when no rule fired, push the
table and bar defaults. -/
def withFallback (l : List ChartType) : List ChartType :=
  l ++ (if l.isEmpty then [ChartType.table, ChartType.bar_chart] else [])

/-- Translation of getSuggestedChartTypes: the additive rule cascade followed
by the table/bar fallback and first-seen deduplication. -/
def getSuggestedChartTypes (ctx : SelectorContext) : List ChartType :=
  let q := ctx.question
  let asksGrowth := asksGrowthSel q
  let asksTrend := asksTrendQ q
  let asksDistribution := asksDistributionQ q
  let asksRanking := asksRankingSel q
  let asksCorrelation := asksCorrelationQ q
  let s1 : List ChartType :=
    if ctx.hasTwoCategories then
      if ctx.hasTime || asksTrend || asksGrowth then [ChartType.line_chart]
      else [ChartType.bar_chart]
    else []
  let s2 := s1 ++ (if ctx.hasTime || asksGrowth || asksTrend then
    [ChartType.line_chart, ChartType.area_chart] else [])
  let s3 := s2 ++ (if ctx.hasCategory && ctx.categoryUniqueCount > 0 &&
      ctx.categoryUniqueCount ≤ 6 && asksDistribution then [ChartType.pie_chart] else [])
  let s4 := s3 ++ (if asksRanking && ctx.hasCategory then [ChartType.horizontal_bar] else [])
  let s5 := s4 ++ (if ctx.hasTwoNumbers && asksCorrelation then [ChartType.scatter_plot] else [])
  let s6 := s5 ++ (if ctx.hasCategory then
      (if ctx.categoryUniqueCount ≤ 6 && !asksTrend && !ctx.hasTime then
        [ChartType.pie_chart, ChartType.bar_chart]
      else [ChartType.bar_chart]) else [])
  let s7 := s6 ++ (if !ctx.hasCategory && ctx.hasTwoNumbers then [ChartType.scatter_plot] else [])
  dedupFirst (withFallback s7)

/-- Numeric reading of a series entry at an index: a missing or null entry
counts as 0, as in the nullish access of applyPercentOfTotal. -/
def entryAt (d : ChartDataset) (li : ℕ) : ℚ :=
  (d.data.getD li none).getD 0

/-- Summed series values at one label index across datasets. -/
def labelTotal (datasets : List ChartDataset) (li : ℕ) : ℚ :=
  (datasets.map (fun d => entryAt d li)).sum

/-- Translation of applyPercentOfTotal: a bar configuration with several
series is normalised per label across series (a zero label total being
replaced by the divisor 1), a pie configuration has its first series
normalised to its own total, and every other configuration is returned
untouched.  The JavaScript per-index assignment extends a series that is
shorter than the label list, which the index-ranged rebuild of the
per-dataset helper mirrors. -/
def percentBarDataset (labels : List String) (datasets : List ChartDataset)
    (d : ChartDataset) : ChartDataset :=
  { d with data := (List.range (max d.data.length labels.length)).map (fun li =>
      if li < labels.length then
        let s := labelTotal datasets li
        let t := if s = 0 then 1 else s
        some (round2 (entryAt d li / t * 100))
      else d.data.getD li none) }

def applyPercentOfTotal (cfg : ChartConfig) : ChartConfig :=
  if cfg.type == ChartType.bar_chart && cfg.data.datasets.length > 1 then
    let labels := cfg.data.labels
    let datasets := cfg.data.datasets
    let newDatasets := datasets.map (percentBarDataset labels datasets)
    { cfg with data := { labels := labels, datasets := newDatasets } }
  else if cfg.type == ChartType.pie_chart && cfg.data.datasets.length ≥ 1 then
    match cfg.data.datasets with
    | [] => cfg
    | d0 :: rest =>
      let s := (d0.data.map (fun v => v.getD 0)).sum
      let t := if s = 0 then 1 else s
      let nd0 := { d0 with data := d0.data.map (fun v => some (round2 (v.getD 0 / t * 100))) }
      { cfg with data := { labels := cfg.data.labels, datasets := nd0 :: rest } }
  else cfg

/-- Primary series values of a configuration: the first series read through
the falsy-to-zero number coercion of the growth enrichment. -/
def primaryValues (cfg : ChartConfig) : List ℚ :=
  ((cfg.data.datasets.headD { label := "", data := [], yAxisID := none }).data).map
    (fun n => n.getD 0)

/-- Period-over-period growth percents: null at index 0 and wherever the
previous value is 0, otherwise the relative delta in percent rounded to two
decimals. -/
def growthPercents (v : List ℚ) : List (Option ℚ) :=
  (List.range v.length).map (fun i =>
    if i = 0 then none
    else
      let prev := v.getD (i - 1) 0
      if prev = 0 then none
      else some (round2 ((v.getD i 0 - prev) / prev * 100)))

/-- Translation of applyGrowthEnrichment: on a configuration with at least
one series, append the Growth % secondary-axis series of period growth
percents and, when the primary series has at least two points, a KPI card
with the last absolute and percentage delta. -/
def applyGrowthEnrichment (cfg : ChartConfig) : ChartConfig :=
  if cfg.data.datasets.isEmpty then cfg
  else
    let v := primaryValues cfg
    let g := growthPercents v
    let lastIdx := v.length - 1
    let newCards :=
      if 1 ≤ lastIdx then
        cfg.cards ++ [{ ctype := "growth",
                        deltaAbs := round2 (v.getD lastIdx 0 - v.getD (lastIdx - 1) 0),
                        deltaPct := g.getD lastIdx none }]
      else cfg.cards
    { cfg with
      cards := newCards,
      data := { labels := cfg.data.labels,
                datasets := cfg.data.datasets ++
                  [{ label := "Growth %", data := g, yAxisID := some "y1" }] } }

/-- Translation of attachNarrative.  The function deep-copies the
configuration and attaches a best-effort natural-language narrative string to
the metadata, swallowing any computation failure; it changes none of the
type, label, series or card fields the embedding tracks, so on the embedded
projection it is the identity. -/
def attachNarrative (cfg : ChartConfig) (_data : List Row) : ChartConfig :=
  cfg

/-- Ranked chart suggestion handed back to the caller. -/
structure ChartSuggestion where
  type : ChartType
  title : String
  description : String
  confidence : ℚ
  config : ChartConfig
  reasoning : String
deriving DecidableEq, Repr

/-- Per-type display title of createChartSuggestion. -/
def titleOf : ChartType → String
  | ChartType.bar_chart => "Gráfico de Barras"
  | ChartType.line_chart => "Gráfico de Linha"
  | ChartType.pie_chart => "Gráfico de Pizza"
  | ChartType.area_chart => "Gráfico de Área"
  | ChartType.scatter_plot => "Gráfico de Dispersão"
  | ChartType.horizontal_bar => "Gráfico de Barras Horizontal"
  | ChartType.table => "Tabela"
  | ChartType.map => "Mapa"

/-- Per-type display description of createChartSuggestion. -/
def descriptionOf : ChartType → String
  | ChartType.bar_chart => "Ideal para comparar valores entre categorias"
  | ChartType.line_chart => "Perfeito para mostrar tendências ao longo do tempo"
  | ChartType.pie_chart => "Ótimo para mostrar proporções de um todo"
  | ChartType.area_chart => "Bom para mostrar volume e tendências"
  | ChartType.scatter_plot => "Ideal para correlacionar duas variáveis numéricas"
  | ChartType.horizontal_bar => "Bom para rankings e comparações"
  | ChartType.table => "Apresenta todos os dados de forma organizada"
  | ChartType.map => "Ideal para dados geográficos"

/-- One conditional confidence boost: add the bonus when the condition holds. -/
def addIf (b : Bool) (c v : ℚ) : ℚ :=
  if b then c + v else c

/-- Translation of calculateConfidence: base 0.5, additive structure and
keyword bonuses, capped at 1. -/
def calculateConfidence (chartType : ChartType) (ds : DataStructure)
    (originalQuestion : Option String) : ℚ :=
  let question := (jsToLower (originalQuestion.getD ""))
  let asksGrowth := containsStr question "crescimento" || containsStr question "growth" ||
    containsStr question "variação" || containsStr question "evolução"
  let asksRanking := containsStr question "top" || containsStr question "ranking" ||
    containsStr question "maiores" || containsStr question "menores"
  let c0 : ℚ := 1 / 2
  let c1 := addIf (chartType == ChartType.bar_chart && ds.hasCategories) c0 (1 / 4)
  let c2 := addIf (chartType == ChartType.line_chart && ds.hasTimeSeries) c1 (7 / 20)
  let c3 := addIf (chartType == ChartType.area_chart && ds.hasTimeSeries) c2 (3 / 10)
  let c4 := addIf (chartType == ChartType.pie_chart && ds.hasCategories) c3 (1 / 5)
  let c5 := addIf (chartType == ChartType.scatter_plot && ds.hasNumericalComparison) c4 (3 / 10)
  let c6 := addIf (chartType == ChartType.horizontal_bar && ds.hasCategories) c5 (1 / 5)
  let c7 := addIf (chartType == ChartType.line_chart &&
      (containsStr question "mês" || containsStr question "month" || asksGrowth)) c6 (1 / 4)
  let c8 := addIf (chartType == ChartType.area_chart &&
      (containsStr question "mês" || containsStr question "month" || asksGrowth)) c7 (1 / 5)
  let c9 := addIf (chartType == ChartType.horizontal_bar && asksRanking) c8 (1 / 4)
  let c10 := addIf (chartType == ChartType.pie_chart &&
      (containsStr question "propor" || containsStr question "percent")) c9 (1 / 5)
  min c10 1

/-- Translation of generateReasoning: per-type phrasing with the two
question-dependent variants of the bar and line types. -/
def generateReasoning (chartType : ChartType) (_ds : DataStructure)
    (originalQuestion : Option String) : String :=
  let question := (jsToLower (originalQuestion.getD ""))
  let asksGrowth := containsStr question "crescimento" || containsStr question "growth" ||
    containsStr question "variação" || containsStr question "evolução"
  match chartType with
  | ChartType.bar_chart =>
    if containsStr question "região" || containsStr question "region" then
      "Gráfico de barras é ideal para comparar vendas entre diferentes regiões"
    else "Gráfico de barras é perfeito para comparar valores entre categorias"
  | ChartType.line_chart =>
    if asksGrowth || containsStr question "mês" || containsStr question "month" then
      "Gráfico de linha evidencia crescimento e tendências entre meses"
    else "Gráfico de linha é ideal para mostrar tendências ao longo do tempo"
  | ChartType.area_chart => "Gráfico de área destaca volume acumulado e evolução temporal"
  | ChartType.pie_chart => "Gráfico de pizza mostra a proporção de cada categoria no total"
  | ChartType.horizontal_bar => "Gráfico de barras horizontal é ideal para rankings e comparações"
  | ChartType.scatter_plot => "Gráfico de dispersão ajuda a visualizar correlações entre variáveis numéricas"
  | _ => "Este tipo de visualização é adequado para os dados analisados"

/-- Translation of createChartSuggestion. -/
def createChartSuggestion (chartType : ChartType) (cfg : ChartConfig)
    (ds : DataStructure) (originalQuestion : Option String) : ChartSuggestion :=
  { type := chartType,
    title := titleOf chartType,
    description := descriptionOf chartType,
    confidence := calculateConfidence chartType ds originalQuestion,
    config := cfg,
    reasoning := generateReasoning chartType ds originalQuestion }

/-- Lower-cased question text, empty when no question was given. -/
def questionOf (q : Option String) : String :=
  (jsToLower (q.getD ""))

/-- Candidate chart types for a dataset and question: the signal computation
of suggestCharts followed by the selector. -/
def chartTypesFor (data : List Row) (q : Option String) : List ChartType :=
  let ds := analyzeDataStructure data
  let question := questionOf q
  let stringColumns := stringColumnsOf ds
  let numberColumns := numberColumnsOf ds
  let dateLikeColumns := dateLikeColumnsOf ds
  let categoryCandidates := categoryCandidatesOf data ds
  let pc0 := categoryCandidates.headD ""
  let pc1 := if pc0 == "" then stringColumns.headD "" else pc0
  let primaryCategory := if pc1 == "" then dateLikeColumns.headD "" else pc1
  let categoryUniqueCount := if primaryCategory == "" then 0 else uniqueCount data primaryCategory
  let mentionedColumns := ((ds.columnTypes.map (fun p => p.1)).map jsToLower).filter
    (fun c => containsStr question c)
  let hasTwoCategories := categoryCandidates.length ≥ 2 ||
    (mentionedColumns.length ≥ 2 && stringColumns.length ≥ 2)
  getSuggestedChartTypes
    { question := question,
      hasCategory := categoryCandidates.length > 0 || stringColumns.length > 0,
      categoryUniqueCount := categoryUniqueCount,
      hasTime := ds.hasTimeSeries || dateLikeColumns.length > 0,
      hasTwoNumbers := numberColumns.length ≥ 2,
      hasTwoCategories := hasTwoCategories }

/-- The suggestion list of suggestCharts before ranking, one suggestion per
candidate chart type in selector emission order, each configuration passed
through the conditional enrichments and the narrative stage. -/
def buildSuggestions (data : List Row) (q : Option String) : List ChartSuggestion :=
  let ds := analyzeDataStructure data
  let question := questionOf q
  let dateLikeColumns := dateLikeColumnsOf ds
  let hasTime := ds.hasTimeSeries || dateLikeColumns.length > 0
  (chartTypesFor data q).map (fun chartType =>
    let cfg0 := generateChartConfig chartType data ds
    let cfg1 := if asksDistributionQ question then applyPercentOfTotal cfg0 else cfg0
    let cfg2 := if (asksGrowthSel question || asksTrendQ question) &&
        (chartType == ChartType.line_chart || chartType == ChartType.area_chart) && hasTime then
        applyGrowthEnrichment cfg1
      else cfg1
    let cfg3 := attachNarrative cfg2 data
    createChartSuggestion chartType cfg3 ds q)

/-- Suggestions after the stable confidence sort: the JavaScript stable sort
with comparator second-confidence minus first-confidence equals the stable
sort ascending in the negated confidence. -/
def sortedSuggestions (data : List Row) (q : Option String) : List ChartSuggestion :=
  sortKeyed (fun s => -s.confidence) (buildSuggestions data q)

/-- Translation of suggestCharts: rank and keep the top three. -/
def suggestCharts (data : List Row) (q : Option String) : List ChartSuggestion :=
  (sortedSuggestions data q).take 3

end Askadb

namespace Askadb

lemma insKey_perm {α β : Type} [LinearOrder β] (key : α → β) (x : α) (l : List α) :
    List.Perm (insKey key x l) (x :: l) := by
  induction l with
  | nil => exact List.Perm.refl _
  | cons y ys ih =>
    simp only [insKey]
    by_cases h : key y < key x
    · rw [if_pos h]
      exact (ih.cons y).trans (List.Perm.swap x y ys)
    · rw [if_neg h]

lemma sortKeyed_perm {α β : Type} [LinearOrder β] (key : α → β) (l : List α) :
    List.Perm (sortKeyed key l) l := by
  induction l with
  | nil => exact List.Perm.refl _
  | cons x xs ih => exact (insKey_perm key x (sortKeyed key xs)).trans (ih.cons x)

lemma insKey_sorted {α β : Type} [LinearOrder β] (key : α → β) (x : α) {l : List α}
    (h : l.Sorted (fun a b => key a ≤ key b)) :
    (insKey key x l).Sorted (fun a b => key a ≤ key b) := by
  induction l with
  | nil => simp [insKey, List.Sorted]
  | cons y ys ih =>
    rw [List.sorted_cons] at h
    obtain ⟨hy, hys⟩ := h
    simp only [insKey]
    by_cases hk : key y < key x
    · rw [if_pos hk]
      rw [List.sorted_cons]
      refine ⟨fun z hz => ?_, ih hys⟩
      rcases List.mem_cons.mp ((insKey_perm key x ys).mem_iff.mp hz) with rfl | hzys
      · exact le_of_lt hk
      · exact hy z hzys
    · rw [if_neg hk]
      rw [List.sorted_cons]
      refine ⟨fun z hz => ?_, ?_⟩
      · rcases List.mem_cons.mp hz with rfl | hzys
        · exact le_of_not_lt hk
        · exact le_trans (le_of_not_lt hk) (hy z hzys)
      · rw [List.sorted_cons]
        exact ⟨hy, hys⟩

lemma sortKeyed_sorted {α β : Type} [LinearOrder β] (key : α → β) (l : List α) :
    (sortKeyed key l).Sorted (fun a b => key a ≤ key b) := by
  induction l with
  | nil => simp [sortKeyed, List.Sorted]
  | cons x xs ih => exact insKey_sorted key x ih

lemma insKey_filter {α β : Type} [LinearOrder β] (key : α → β) (p : α → Bool)
    (hp : ∀ a b, p a = true → p b = true → key a = key b) (x : α) (l : List α) :
    (insKey key x l).filter p = if p x then x :: l.filter p else l.filter p := by
  induction l with
  | nil => by_cases hx : p x = true <;> simp [insKey, List.filter_cons, hx]
  | cons y ys ih =>
    simp only [insKey]
    by_cases hk : key y < key x
    · rw [if_pos hk]
      simp only [List.filter_cons, ih]
      by_cases hx : p x = true
      · by_cases hy : p y = true
        · exact absurd (hp x y hx hy) (ne_of_gt hk)
        · simp [hx, hy]
      · simp [hx]
    · rw [if_neg hk]
      simp only [List.filter_cons]

lemma sortKeyed_filter {α β : Type} [LinearOrder β] (key : α → β) (p : α → Bool)
    (hp : ∀ a b, p a = true → p b = true → key a = key b) (l : List α) :
    (sortKeyed key l).filter p = l.filter p := by
  induction l with
  | nil => rfl
  | cons x xs ih =>
    simp only [sortKeyed]
    rw [insKey_filter key p hp, List.filter_cons, ih]

lemma dedupFirst_eq_nil_iff {α : Type} [DecidableEq α] (l : List α) :
    dedupFirst l = [] ↔ l = [] := by
  cases l with
  | nil => simp [dedupFirst, dedupAux]
  | cons x xs => simp [dedupFirst, dedupAux]

lemma withFallback_ne_nil (l : List ChartType) : withFallback l ≠ [] := by
  cases l <;> simp [withFallback]

lemma getSuggestedChartTypes_shape (ctx : SelectorContext) :
    ∃ l, getSuggestedChartTypes ctx = dedupFirst (withFallback l) :=
  ⟨_, rfl⟩

lemma getSuggestedChartTypes_ne_nil (ctx : SelectorContext) :
    getSuggestedChartTypes ctx ≠ [] := by
  obtain ⟨l, hl⟩ := getSuggestedChartTypes_shape ctx
  rw [hl, Ne, dedupFirst_eq_nil_iff]
  exact withFallback_ne_nil l

lemma chartTypesFor_ne_nil (data : List Row) (q : Option String) :
    chartTypesFor data q ≠ [] :=
  getSuggestedChartTypes_ne_nil _

lemma buildSuggestions_ne_nil (data : List Row) (q : Option String) :
    buildSuggestions data q ≠ [] := by
  simp only [buildSuggestions]
  rw [Ne, List.map_eq_nil_iff]
  exact chartTypesFor_ne_nil data q

lemma sortedSuggestions_ne_nil (data : List Row) (q : Option String) :
    sortedSuggestions data q ≠ [] := by
  intro h
  simp only [sortedSuggestions] at h
  have hlen := (sortKeyed_perm (fun s : ChartSuggestion => -s.confidence)
    (buildSuggestions data q)).length_eq
  rw [h] at hlen
  exact buildSuggestions_ne_nil data q (List.length_eq_zero.mp hlen.symm)

/-- Claim C10: for every dataset, with or without a question, suggestCharts
returns at least one suggestion, because the chart-type selector always emits
at least one candidate (falling back to table and bar when no rule fires) and
the top-3 truncation of a nonempty list is nonempty. -/
theorem claim10_suggestions_nonempty (data : List Row) (q : Option String) :
    suggestCharts data q ≠ [] := by
  simp only [suggestCharts]
  rw [Ne, List.take_eq_nil_iff]
  push_neg
  exact ⟨by norm_num, sortedSuggestions_ne_nil data q⟩

end Askadb

namespace Askadb

lemma le_addIf (b : Bool) (c v : ℚ) (hv : 0 ≤ v) : c ≤ addIf b c v := by
  cases b
  · simp [addIf]
  · simp only [addIf, if_pos]
    linarith

lemma calculateConfidence_bounds (t : ChartType) (ds : DataStructure) (q : Option String) :
    1 / 2 ≤ calculateConfidence t ds q ∧ calculateConfidence t ds q ≤ 1 := by
  simp only [calculateConfidence]
  constructor
  · apply le_min _ (by norm_num)
    iterate 10 refine le_trans ?_ (le_addIf _ _ _ (by norm_num))
    exact le_refl _
  · exact min_le_right _ _

lemma buildSuggestions_shape (data : List Row) (q : Option String) :
    ∃ f, buildSuggestions data q = (chartTypesFor data q).map f ∧
      ∀ t, (f t).confidence = calculateConfidence t (analyzeDataStructure data) q :=
  ⟨_, rfl, fun _ => rfl⟩

lemma mem_buildSuggestions_confidence (data : List Row) (q : Option String)
    (s : ChartSuggestion) (hs : s ∈ buildSuggestions data q) :
    1 / 2 ≤ s.confidence ∧ s.confidence ≤ 1 := by
  obtain ⟨f, hf, hconf⟩ := buildSuggestions_shape data q
  rw [hf] at hs
  obtain ⟨t, _, rfl⟩ := List.mem_map.mp hs
  rw [hconf t]
  exact calculateConfidence_bounds t _ q

/-- Claim C1: for every dataset and optional question the returned list has
at most 3 entries, is sorted non-increasing by confidence, every confidence
lies between 0 and 1, the result is the top-3 prefix of the stably sorted
suggestion list, and the stable sort preserves, within every confidence
level, the emission order of the suggestion list built in selector order
(tie stability). -/
theorem claim1_suggestions_ranked (data : List Row) (q : Option String) :
    (suggestCharts data q).length ≤ 3 ∧
    (suggestCharts data q).Sorted (fun a b => b.confidence ≤ a.confidence) ∧
    (∀ s ∈ suggestCharts data q, 0 ≤ s.confidence ∧ s.confidence ≤ 1) ∧
    suggestCharts data q = (sortedSuggestions data q).take 3 ∧
    (∀ c : ℚ, (sortedSuggestions data q).filter (fun s => decide (s.confidence = c)) =
      (buildSuggestions data q).filter (fun s => decide (s.confidence = c))) := by
  refine ⟨List.length_take_le 3 _, ?_, ?_, rfl, ?_⟩
  · have hs := sortKeyed_sorted (fun s : ChartSuggestion => -s.confidence)
      (buildSuggestions data q)
    have hs2 : (sortedSuggestions data q).Sorted (fun a b => b.confidence ≤ a.confidence) := by
      simp only [sortedSuggestions]
      exact hs.imp (fun h => neg_le_neg_iff.mp h)
    exact List.Pairwise.sublist (List.take_sublist 3 _) hs2
  · intro s hs
    have hmem : s ∈ sortedSuggestions data q := List.take_subset 3 _ hs
    have hmem2 : s ∈ buildSuggestions data q := by
      simp only [sortedSuggestions] at hmem
      exact (sortKeyed_perm _ _).mem_iff.mp hmem
    have hb := mem_buildSuggestions_confidence data q s hmem2
    exact ⟨by linarith [hb.1], hb.2⟩
  · intro c
    simp only [sortedSuggestions]
    refine sortKeyed_filter _ _ (fun a b ha hb => ?_) _
    have ha2 : a.confidence = c := of_decide_eq_true ha
    have hb2 : b.confidence = c := of_decide_eq_true hb
    rw [ha2, hb2]

end Askadb

namespace Askadb

/-- Claim C9: suggestCharts is a total function of the embedded input space
(rows of string/number/boolean/absent scalars, optional question), so no
input raises an error; in particular the empty dataset with no question
yields the all-false empty data-structure snapshot, the selector falls back
to the table/bar default path, and the returned suggestions are exactly the
table and bar suggestions of that fallback. -/
theorem claim9_empty_dataset_safe :
    analyzeDataStructure ([] : List Row) =
      { hasTimeSeries := false, hasCategories := false, hasNumericalComparison := false,
        hasGeographicData := false, columnTypes := [], rowCount := 0, columnCount := 0 } ∧
    chartTypesFor [] none = [ChartType.table, ChartType.bar_chart] ∧
    (suggestCharts [] none).map (fun s => s.type) = [ChartType.table, ChartType.bar_chart] := by
  refine ⟨rfl, rfl, ?_⟩
  have hconf : ∀ t, calculateConfidence t (analyzeDataStructure ([] : List Row)) none = 1 / 2 := by
    intro t
    simp +decide [calculateConfidence, addIf, analyzeDataStructure]
    norm_num [min_def]
  have hshape : ∃ a b, buildSuggestions [] none = [a, b] ∧ a.type = ChartType.table ∧
      b.type = ChartType.bar_chart ∧
      a.confidence = calculateConfidence ChartType.table (analyzeDataStructure []) none ∧
      b.confidence = calculateConfidence ChartType.bar_chart (analyzeDataStructure []) none :=
    ⟨_, _, rfl, rfl, rfl, rfl, rfl⟩
  obtain ⟨a, b, hab, hat, hbt, hac, hbc⟩ := hshape
  have hcc : ¬(-b.confidence < -a.confidence) := by
    rw [hac, hbc, hconf, hconf]
    exact lt_irrefl _
  have hstep : suggestCharts [] none =
      (sortKeyed (fun s : ChartSuggestion => -s.confidence) [a, b]).take 3 := by
    show (sortKeyed (fun s : ChartSuggestion => -s.confidence) (buildSuggestions [] none)).take 3 = _
    rw [hab]
  rw [hstep]
  have hins : sortKeyed (fun s : ChartSuggestion => -s.confidence) [a, b] = [a, b] := by
    simp only [sortKeyed, insKey]
    rw [if_neg hcc]
  rw [hins]
  simp [hat, hbt]

end Askadb

namespace Askadb

lemma growthPercents_length (v : List ℚ) : (growthPercents v).length = v.length := by
  simp [growthPercents]

lemma growthPercents_getD (v : List ℚ) (i : ℕ) (hi : i < v.length) :
    (growthPercents v).getD i (some 0) =
      (if i = 0 then none
       else if v.getD (i - 1) 0 = 0 then none
       else some (round2 ((v.getD i 0 - v.getD (i - 1) 0) / v.getD (i - 1) 0 * 100))) := by
  simp only [growthPercents, List.getD_eq_getElem?_getD, List.getElem?_map]
  rw [List.getElem?_range hi]
  simp

/-- Claim C6: on any configuration with at least one series, growth
enrichment appends a final series labelled Growth % on the secondary axis
whose entry is null at index 0 and wherever the previous primary value is 0,
and otherwise the period-over-period percent change rounded to two decimals. -/
theorem claim6_growth_series (cfg : ChartConfig) (h : cfg.data.datasets ≠ []) :
    ∃ g, (applyGrowthEnrichment cfg).data.datasets.getLast? = some g ∧
      g.label = "Growth %" ∧ g.yAxisID = some "y1" ∧
      g.data.length = (primaryValues cfg).length ∧
      ∀ i, i < (primaryValues cfg).length →
        g.data.getD i (some 0) =
          (if i = 0 then none
           else if (primaryValues cfg).getD (i - 1) 0 = 0 then none
           else some (round2 (((primaryValues cfg).getD i 0 - (primaryValues cfg).getD (i - 1) 0) /
             (primaryValues cfg).getD (i - 1) 0 * 100))) := by
  refine ⟨{ label := "Growth %", data := growthPercents (primaryValues cfg),
            yAxisID := some "y1" }, ?_, rfl, rfl, growthPercents_length _, ?_⟩
  · simp only [applyGrowthEnrichment]
    rw [if_neg (fun hh => h (List.isEmpty_iff.mp hh))]
    exact List.getLast?_concat _
  · intro i hi
    exact growthPercents_getD _ i hi

/-- Concrete line configuration exercising the growth enrichment. -/
def growthWitnessCfg : ChartConfig :=
  { type := ChartType.line_chart,
    data := { labels := ["a", "b", "c", "d"],
              datasets := [{ label := "v", data := [some 10, some 0, some 5, some 6] }] } }

/-- Witness for claim C6 at a concrete four-point series. -/
theorem claim6_growth_series_witness :
    growthWitnessCfg.data.datasets ≠ [] ∧
    ∃ g, (applyGrowthEnrichment growthWitnessCfg).data.datasets.getLast? = some g ∧
      g.label = "Growth %" ∧ g.yAxisID = some "y1" ∧
      g.data.length = (primaryValues growthWitnessCfg).length ∧
      ∀ i, i < (primaryValues growthWitnessCfg).length →
        g.data.getD i (some 0) =
          (if i = 0 then none
           else if (primaryValues growthWitnessCfg).getD (i - 1) 0 = 0 then none
           else some (round2 (((primaryValues growthWitnessCfg).getD i 0 -
               (primaryValues growthWitnessCfg).getD (i - 1) 0) /
             (primaryValues growthWitnessCfg).getD (i - 1) 0 * 100))) :=
  ⟨by simp [growthWitnessCfg], claim6_growth_series growthWitnessCfg (by simp [growthWitnessCfg])⟩

end Askadb

namespace Askadb

lemma zip_map_fst_snd {α β : Type} (l : List (α × β)) :
    (l.map Prod.fst).zip (l.map Prod.snd) = l := by
  induction l with
  | nil => rfl
  | cons x xs ih => simp [ih]

lemma sortLabelsIfMonth_not_month (labels : List String) (values : List ℚ)
    (h : ∀ l ∈ labels, monthIdx l = 999) :
    sortLabelsIfMonth labels values = (labels, values) := by
  simp only [sortLabelsIfMonth]
  rw [if_pos (List.all_eq_true.mpr (fun l hl => by rw [beq_iff_eq]; exact h l hl))]

lemma sortLabelsIfMonth_sorts (labels : List String) (values : List ℚ)
    (hex : ∃ l ∈ labels, monthIdx l ≠ 999) :
    List.Perm ((sortLabelsIfMonth labels values).1.zip (sortLabelsIfMonth labels values).2)
      (labels.zip values) ∧
    ((sortLabelsIfMonth labels values).1.map monthIdx).Sorted (· ≤ ·) := by
  obtain ⟨l0, hl0, hne⟩ := hex
  have hall : labels.all (fun l => monthIdx l == 999) = false := by
    rw [List.all_eq_false]
    exact ⟨l0, hl0, by simpa using hne⟩
  simp only [sortLabelsIfMonth, hall, Bool.false_eq_true, if_false]
  constructor
  · rw [zip_map_fst_snd]
    exact sortKeyed_perm _ _
  · have hs := sortKeyed_sorted (fun p : String × ℚ => monthIdx p.1) (labels.zip values)
    simp only [List.Sorted, List.map_map] at hs ⊢
    rw [List.pairwise_map]
    exact hs

/-- Claim C4 as amended: the label/value pairs are returned unchanged exactly
when no label matches a known month name; as soon as one label matches, the
pairs are stably sorted by month key (so a non-month label mixed in is moved
after the months rather than blocking the reorder, and mixing the
after-December-keyed abbreviations with full names can break chronology);
when every label is a full month name the resulting label order is
chronological, non-decreasing in the month index. -/
theorem claim4_month_reorder_amended :
    (∀ labels values, (∀ l ∈ labels, monthIdx l = 999) →
      sortLabelsIfMonth labels values = (labels, values)) ∧
    (∀ (labels : List String) (values : List ℚ),
      (∃ l ∈ labels, monthIdx l ≠ 999) →
      List.Perm ((sortLabelsIfMonth labels values).1.zip (sortLabelsIfMonth labels values).2)
        (labels.zip values) ∧
      ((sortLabelsIfMonth labels values).1.map monthIdx).Sorted (· ≤ ·)) ∧
    (∀ (labels : List String) (values : List ℚ),
      (∀ l ∈ labels, monthIdx l < 12) → labels ≠ [] →
      ((sortLabelsIfMonth labels values).1.map monthIdx).Sorted (· ≤ ·)) := by
  refine ⟨sortLabelsIfMonth_not_month, sortLabelsIfMonth_sorts, ?_⟩
  intro labels values hfull hne
  cases labels with
  | nil => exact absurd rfl hne
  | cons l0 ls =>
    exact (sortLabelsIfMonth_sorts (l0 :: ls) values
      ⟨l0, List.mem_cons_self l0 ls, by
        have := hfull l0 (List.mem_cons_self l0 ls)
        omega⟩).2

/-- Witness for claim C4 at concrete inputs: a month-free pair of labels is
left untouched, and an all-full-month label list comes out chronologically
sorted. -/
theorem claim4_month_reorder_amended_witness :
    sortLabelsIfMonth ["x", "y"] [1, 2] = (["x", "y"], [1, 2]) ∧
    ((sortLabelsIfMonth ["março", "January"] [1, 2]).1.map monthIdx).Sorted (· ≤ ·) :=
  ⟨claim4_month_reorder_amended.1 ["x", "y"] [1, 2] (by decide),
   claim4_month_reorder_amended.2.2 ["março", "January"] [1, 2] (by decide) (by decide)⟩

/-- Counterexample to claim C4 as stated: with labels b and jan the non-month
label b does not block the reorder (the output moves jan first), refuting the
no-reordering conjunct; and with the two known month names jan and february
the output puts february before jan, refuting chronological order for
all-month label lists that mix abbreviations with full names. -/
theorem claim4_month_reorder_counterexample :
    sortLabelsIfMonth ["b", "jan"] [1, 2] = (["jan", "b"], [2, 1]) ∧
    monthIdx "b" = 999 ∧
    sortLabelsIfMonth ["jan", "february"] [1, 2] = (["february", "jan"], [2, 1]) ∧
    monthIdx "jan" = 12 ∧ monthIdx "february" = 1 :=
  ⟨rfl, rfl, rfl, rfl, rfl⟩

end Askadb

namespace Askadb

lemma firstSat_eq_find? (p : String → Bool) (l : List String) :
    firstSat p l = l.find? p := by
  induction l with
  | nil => rfl
  | cons a l ih => by_cases h : p a <;> simp [firstSat, List.find?_cons, h, ih]

/-- Dataset with a time-named column, a geographic-named column and two
number columns of which only the second carries a value-ish name; it
separates the source's resolution order from the one the claim states. -/
def c3Data : List Row :=
  [[("month", Value.str "Jan"), ("region", Value.str "North"),
    ("count", Value.num 2), ("sales", Value.num 3)],
   [("month", Value.str "Feb"), ("region", Value.str "South"),
    ("count", Value.num 5), ("sales", Value.num 7)]]

/-- Category resolution as the claim states it (geographic name, then time
name, then date type, then string type, then first column), written out to be
compared with the source's findCategoryColumn. -/
def findCategoryColumnSpec (data : List Row) (ds : DataStructure) : String :=
  let columns := rowKeys data
  match columns.find? (fun c => containsStr (jsToLower c) "region" ||
      containsStr (jsToLower c) "country" || containsStr (jsToLower c) "state" ||
      containsStr (jsToLower c) "city" || containsStr (jsToLower c) "location") with
  | some c => c
  | none =>
    match columns.find? (fun c => containsStr (jsToLower c) "month" ||
        containsStr (jsToLower c) "date" || containsStr (jsToLower c) "time") with
    | some c => c
    | none =>
      match columns.find? (fun c => typeOf ds c == some ColumnType.date) with
      | some c => c
      | none =>
        match columns.find? (fun c => typeOf ds c == some ColumnType.string) with
        | some c => c
        | none => columns.headD ""

/-- Value resolution as the claim states it (value-ish-named number column,
then first number column, then second column, then first column), written out
to be compared with the source's findValueColumn. -/
def findValueColumnSpec (data : List Row) (ds : DataStructure) : String :=
  let columns := rowKeys data
  match columns.find? (fun c => typeOf ds c == some ColumnType.number &&
      (containsStr (jsToLower c) "sales" || containsStr (jsToLower c) "amount" ||
       containsStr (jsToLower c) "total" || containsStr (jsToLower c) "value" ||
       containsStr (jsToLower c) "quantity")) with
  | some c => c
  | none =>
    match columns.find? (fun c => typeOf ds c == some ColumnType.number) with
    | some c => c
    | none =>
      match columns.get? 1 with
      | some c => c
      | none => columns.headD ""

/-- Claim C3 as amended: the source's category resolution has no geographic
step, it takes the first column that is date-typed or time-named, then the
first string-typed column, then the first column; and value resolution has no
value-ish keyword preference, it takes the first number-typed column, then
the second column unless its name is empty (JavaScript falsiness), then the
first column. -/
theorem claim3_column_resolution_amended (data : List Row) (ds : DataStructure) :
    (∀ c, (rowKeys data).find? (isTimeLikeColumn ds) = some c →
      findCategoryColumn data ds = c) ∧
    ((rowKeys data).find? (isTimeLikeColumn ds) = none →
      ∀ c, (rowKeys data).find? (fun c => typeOf ds c == some ColumnType.string) = some c →
        findCategoryColumn data ds = c) ∧
    ((rowKeys data).find? (isTimeLikeColumn ds) = none →
      (rowKeys data).find? (fun c => typeOf ds c == some ColumnType.string) = none →
      findCategoryColumn data ds = (rowKeys data).headD "") ∧
    (∀ c, (rowKeys data).find? (fun c => typeOf ds c == some ColumnType.number) = some c →
      findValueColumn data ds = c) ∧
    ((rowKeys data).find? (fun c => typeOf ds c == some ColumnType.number) = none →
      findValueColumn data ds =
        (if (rowKeys data).getD 1 "" == "" then (rowKeys data).headD ""
         else (rowKeys data).getD 1 "")) := by
  refine ⟨?_, ?_, ?_, ?_, ?_⟩
  · intro c hc
    simp only [findCategoryColumn, firstSat_eq_find?, hc]
  · intro h1 c hc
    simp only [findCategoryColumn, firstSat_eq_find?, h1, hc]
  · intro h1 h2
    simp only [findCategoryColumn, firstSat_eq_find?, h1, h2]
  · intro c hc
    simp only [findValueColumn, firstSat_eq_find?, hc]
  · intro h1
    simp only [findValueColumn, firstSat_eq_find?, h1]

/-- Witness for claim C3 on the concrete dataset: the time-named month column
wins the category resolution and the first number column count wins the value
resolution. -/
theorem claim3_column_resolution_amended_witness :
    findCategoryColumn c3Data (analyzeDataStructure c3Data) = "month" ∧
    findValueColumn c3Data (analyzeDataStructure c3Data) = "count" :=
  ⟨(claim3_column_resolution_amended c3Data (analyzeDataStructure c3Data)).1 "month" (by rfl),
   (claim3_column_resolution_amended c3Data (analyzeDataStructure c3Data)).2.2.2.1 "count" (by rfl)⟩

/-- Counterexample to claim C3 as stated: on a dataset with both a
geographic-named and a time-named column the source resolves the category to
the time-named month column, not the geographic region column the claim
prescribes; and with a plain count column before a value-ish sales column the
source resolves the value to count, not sales. -/
theorem claim3_column_resolution_counterexample :
    findCategoryColumn c3Data (analyzeDataStructure c3Data) = "month" ∧
    findCategoryColumnSpec c3Data (analyzeDataStructure c3Data) = "region" ∧
    findValueColumn c3Data (analyzeDataStructure c3Data) = "count" ∧
    findValueColumnSpec c3Data (analyzeDataStructure c3Data) = "sales" ∧
    ("month" : String) ≠ "region" ∧ ("count" : String) ≠ "sales" :=
  ⟨rfl, rfl, rfl, rfl, by decide, by decide⟩

end Askadb

namespace Askadb

/-- Dataset with two number-typed columns, the precondition of the scatter
claim. -/
def c8Data : List Row :=
  [[("a", Value.num 1), ("b", Value.num 2)],
   [("a", Value.num 3), ("b", Value.num 4)]]

/-- Claim C8 as amended: the scatter builder does not pair the first two
numeric columns; it emits one label/value entry per row, the label being the
string form of the resolved category-column value and the value being the
numeric form of the resolved value-column value, falsy values giving the
empty label and the value 0, without aggregation (output length equals the
row count). -/
theorem claim8_scatter_amended (data : List Row) (ds : DataStructure) :
    (generateChartConfig ChartType.scatter_plot data ds).data.labels =
      data.map (fun row => if jsFalsy (rowGet row (findCategoryColumn data ds)) then ""
        else jsStringOfValue (rowGet row (findCategoryColumn data ds))) ∧
    (generateChartConfig ChartType.scatter_plot data ds).data.datasets.map (fun d => d.data) =
      [data.map (fun row => if jsFalsy (rowGet row (findValueColumn data ds)) then some (0 : ℚ)
        else jsNumberOfValue (rowGet row (findValueColumn data ds)))] ∧
    (generateChartConfig ChartType.scatter_plot data ds).data.labels.length = data.length :=
  ⟨rfl, rfl, by simp [generateChartConfig, generateScatterPlotConfig]⟩

/-- Counterexample to claim C8 as stated: on a dataset whose two columns a
and b are both number-typed, the scatter output contains only the per-row
values of column a (which is simultaneously the resolved category and value
column) with their string forms as labels; the second numeric column's values
2 and 4 appear in no series, so no (x,y) pairing of the first two numeric
columns is emitted. -/
theorem claim8_scatter_counterexample :
    (analyzeDataStructure c8Data).columnTypes =
      [("a", ColumnType.number), ("b", ColumnType.number)] ∧
    (generateChartConfig ChartType.scatter_plot c8Data
        (analyzeDataStructure c8Data)).data.datasets.map (fun d => d.data) = [[some 1, some 3]] ∧
    (∀ d ∈ (generateChartConfig ChartType.scatter_plot c8Data
        (analyzeDataStructure c8Data)).data.datasets, d.data ≠ [some 2, some 4]) ∧
    (generateChartConfig ChartType.scatter_plot c8Data
        (analyzeDataStructure c8Data)).data.labels = ["1", "3"] :=
  ⟨rfl, rfl, by decide, rfl⟩

end Askadb

namespace Askadb

/-- Claim C7 as amended: classification looks only at the first 10 rows and
tests number, then boolean, then date, first match winning, defaulting to
string; an empty sample (empty dataset) vacuously classifies as number; but
an all-absent column of a nonempty dataset samples absent values, which fail
all three tests, so it classifies as string, not number. -/
theorem claim7_column_classifier_amended :
    (∀ data col, detectColumnType data col = detectColumnType (data.take 10) col) ∧
    (∀ data col,
      (detectColumnType data col = ColumnType.number ↔
        (sampleOf data col).all isNumericish = true) ∧
      (detectColumnType data col = ColumnType.boolean ↔
        ((sampleOf data col).all isNumericish = false ∧
         (sampleOf data col).all isBooleanish = true)) ∧
      (detectColumnType data col = ColumnType.date ↔
        ((sampleOf data col).all isNumericish = false ∧
         (sampleOf data col).all isBooleanish = false ∧
         (sampleOf data col).all isDateish = true)) ∧
      (detectColumnType data col = ColumnType.string ↔
        ((sampleOf data col).all isNumericish = false ∧
         (sampleOf data col).all isBooleanish = false ∧
         (sampleOf data col).all isDateish = false))) ∧
    (∀ col, detectColumnType [] col = ColumnType.number) ∧
    (∀ data col, data ≠ [] → (∀ row ∈ data, rowGet row col = Value.absent) →
      detectColumnType data col = ColumnType.string) := by
  refine ⟨?_, ?_, fun col => rfl, ?_⟩
  · intro data col
    simp [detectColumnType, sampleOf, List.take_take]
  · intro data col
    simp only [detectColumnType]
    cases hN : (sampleOf data col).all isNumericish <;>
      cases hB : (sampleOf data col).all isBooleanish <;>
        cases hD : (sampleOf data col).all isDateish <;>
          simp [hN, hB, hD]
  · intro data col hne habs
    cases data with
    | nil => exact absurd rfl hne
    | cons r rest =>
      have hmem : Value.absent ∈ sampleOf (r :: rest) col := by
        have hr : rowGet r col = Value.absent := habs r (List.mem_cons_self r rest)
        simp only [sampleOf, List.take_succ_cons, List.map_cons]
        rw [hr]
        exact List.mem_cons_self _ _
      have hfail : ∀ (f : Value → Bool), f Value.absent = false →
          (sampleOf (r :: rest) col).all f = false := by
        intro f hf
        rw [List.all_eq_false]
        exact ⟨Value.absent, hmem, by simp [hf]⟩
      simp only [detectColumnType]
      rw [hfail isNumericish rfl, hfail isBooleanish rfl, hfail isDateish rfl]
      simp

/-- Witness for claim C7: a column absent from the single row of a nonempty
dataset classifies as string, and the empty dataset classifies every column
as number. -/
theorem claim7_column_classifier_amended_witness :
    detectColumnType [[("x", Value.num 1)]] "c" = ColumnType.string ∧
    detectColumnType [] "c" = ColumnType.number :=
  ⟨claim7_column_classifier_amended.2.2.2 [[("x", Value.num 1)]] "c" (by decide) (by decide),
   claim7_column_classifier_amended.2.2.1 "c"⟩

/-- Counterexample to claim C7 as stated: an all-absent column of a nonempty
dataset does not classify as number; its sampled absent values fail every
test and the classifier returns string. -/
theorem claim7_column_classifier_counterexample :
    (∀ row ∈ ([[("x", Value.num 1)]] : List Row), rowGet row "c" = Value.absent) ∧
    detectColumnType [[("x", Value.num 1)]] "c" = ColumnType.string ∧
    ColumnType.string ≠ ColumnType.number :=
  ⟨by decide, rfl, by decide⟩

end Askadb

namespace Askadb

lemma abs_round2_sub (x : ℚ) : |round2 x - x| ≤ 1 / 200 := by
  have h := abs_sub_round (x * 100)
  have heq : round2 x - x = (x * 100 - ((round (x * 100) : ℤ) : ℚ)) * (-1 / 100) := by
    rw [round2]
    ring
  rw [heq, abs_mul]
  have habs : |(-1 : ℚ) / 100| = 1 / 100 := by
    rw [abs_div]
    norm_num
  rw [habs]
  calc |x * 100 - ((round (x * 100) : ℤ) : ℚ)| * (1 / 100) ≤ (1 / 2) * (1 / 100) :=
        mul_le_mul_of_nonneg_right h (by norm_num)
    _ = 1 / 200 := by norm_num

lemma sum_round2_err (l : List ℚ) :
    |(l.map round2).sum - l.sum| ≤ l.length / 200 := by
  induction l with
  | nil => simp
  | cons x xs ih =>
    simp only [List.map_cons, List.sum_cons, List.length_cons]
    have h1 := abs_round2_sub x
    calc |round2 x + (xs.map round2).sum - (x + xs.sum)|
        = |(round2 x - x) + ((xs.map round2).sum - xs.sum)| := by ring_nf
      _ ≤ |round2 x - x| + |(xs.map round2).sum - xs.sum| := abs_add _ _
      _ ≤ 1 / 200 + xs.length / 200 := add_le_add h1 ih
      _ = ((xs.length + 1 : ℕ) : ℚ) / 200 := by push_cast; ring

lemma sum_map_pct (l : List ℚ) (s : ℚ) (hs : s ≠ 0) (hsum : l.sum = s) :
    (l.map (fun x => x / s * 100)).sum = 100 := by
  have hf : (fun x : ℚ => x / s * 100) = (fun x : ℚ => x * (100 / s)) := by
    funext x
    ring
  rw [hf]
  have hlin : ∀ (m : List ℚ) (c : ℚ), (m.map (fun x => x * c)).sum = m.sum * c := by
    intro m c
    induction m with
    | nil => simp
    | cons y ys ih => simp [ih, add_mul]
  rw [hlin, hsum]
  field_simp

lemma entryAt_percentBarDataset (labels : List String) (datasets : List ChartDataset)
    (d : ChartDataset) (li : ℕ) (hli : li < labels.length) :
    entryAt (percentBarDataset labels datasets d) li =
      round2 (entryAt d li /
        (if labelTotal datasets li = 0 then 1 else labelTotal datasets li) * 100) := by
  have hM : li < max d.data.length labels.length :=
    lt_of_lt_of_le hli (le_max_right _ _)
  simp only [percentBarDataset, entryAt, List.getD_eq_getElem?_getD, List.getElem?_map,
    List.getElem?_range hM]
  simp [hli]

lemma labelTotal_map (G : ChartDataset → ChartDataset) (datasets : List ChartDataset) (li : ℕ) :
    labelTotal (datasets.map G) li = (datasets.map (fun d => entryAt (G d) li)).sum := by
  simp [labelTotal, List.map_map, Function.comp_def]

/-- Claim C5 as amended: in the multi-series bar branch the per-label sum of
the normalised values is within 0.005 per series of 100 whenever the label's
original total is nonzero (the claimed 0.01 tolerance holds only for up to
two series); in the pie branch the first series is normalised to its own
nonzero total with the same 0.005-per-entry bound; and a single-series bar
configuration is not normalised at all, the enrichment returns it unchanged. -/
theorem claim5_percent_total_amended :
    (∀ cfg : ChartConfig, cfg.type = ChartType.bar_chart → 1 < cfg.data.datasets.length →
      ∀ li, li < cfg.data.labels.length → labelTotal cfg.data.datasets li ≠ 0 →
      |labelTotal (applyPercentOfTotal cfg).data.datasets li - 100| ≤
        cfg.data.datasets.length / 200) ∧
    (∀ (cfg : ChartConfig) (d0 : ChartDataset) (rest : List ChartDataset),
      cfg.type = ChartType.pie_chart → cfg.data.datasets = d0 :: rest →
      (d0.data.map (fun v => v.getD 0)).sum ≠ 0 →
      ∃ nd0, (applyPercentOfTotal cfg).data.datasets = nd0 :: rest ∧
        |(nd0.data.map (fun v => v.getD 0)).sum - 100| ≤ d0.data.length / 200) ∧
    (∀ cfg : ChartConfig, cfg.type = ChartType.bar_chart → cfg.data.datasets.length = 1 →
      applyPercentOfTotal cfg = cfg) := by
  refine ⟨?_, ?_, ?_⟩
  · intro cfg htype hlen li hli hnz
    have hcond : (cfg.type == ChartType.bar_chart &&
        decide (cfg.data.datasets.length > 1)) = true := by
      simp [htype, hlen]
    simp only [applyPercentOfTotal]
    rw [if_pos hcond]
    rw [labelTotal_map]
    have hentry : ∀ d ∈ cfg.data.datasets,
        entryAt (percentBarDataset cfg.data.labels cfg.data.datasets d) li =
          round2 (entryAt d li / labelTotal cfg.data.datasets li * 100) := by
      intro d _
      rw [entryAt_percentBarDataset cfg.data.labels cfg.data.datasets d li hli, if_neg hnz]
    rw [List.map_congr_left hentry]
    have hrw : cfg.data.datasets.map
          (fun d => round2 (entryAt d li / labelTotal cfg.data.datasets li * 100)) =
        ((cfg.data.datasets.map (fun d => entryAt d li)).map
          (fun x => x / labelTotal cfg.data.datasets li * 100)).map round2 := by
      simp [List.map_map, Function.comp_def]
    rw [hrw]
    have hsum : ((cfg.data.datasets.map (fun d => entryAt d li)).map
        (fun x => x / labelTotal cfg.data.datasets li * 100)).sum = 100 :=
      sum_map_pct _ _ hnz rfl
    have herr := sum_round2_err ((cfg.data.datasets.map (fun d => entryAt d li)).map
        (fun x => x / labelTotal cfg.data.datasets li * 100))
    rw [hsum] at herr
    simpa using herr
  · intro cfg d0 rest htype hds hnz
    have hc1 : ¬((cfg.type == ChartType.bar_chart &&
        decide (cfg.data.datasets.length > 1)) = true) := by
      simp [htype]
    have hc2 : (cfg.type == ChartType.pie_chart &&
        decide (cfg.data.datasets.length ≥ 1)) = true := by
      simp [htype, hds]
    simp only [applyPercentOfTotal]
    rw [if_neg hc1, if_pos hc2]
    simp only [hds]
    refine ⟨_, rfl, ?_⟩
    rw [if_neg hnz]
    have hrw : ((d0.data.map (fun v => some (round2 (v.getD 0 /
          (d0.data.map (fun v => v.getD 0)).sum * 100)))).map (fun v => v.getD 0)) =
        ((d0.data.map (fun v => v.getD 0)).map
          (fun x => x / (d0.data.map (fun v => v.getD 0)).sum * 100)).map round2 := by
      simp [List.map_map, Function.comp_def]
    rw [hrw]
    have hsum : ((d0.data.map (fun v => v.getD 0)).map
        (fun x => x / (d0.data.map (fun v => v.getD 0)).sum * 100)).sum = 100 :=
      sum_map_pct _ _ hnz rfl
    have herr := sum_round2_err ((d0.data.map (fun v => v.getD 0)).map
        (fun x => x / (d0.data.map (fun v => v.getD 0)).sum * 100))
    rw [hsum] at herr
    simpa using herr
  · intro cfg htype hlen
    simp only [applyPercentOfTotal]
    rw [if_neg (by simp [hlen]), if_neg (by simp [htype])]

/-- Two-series bar configuration exercising the multi-series normalisation. -/
def c5Bar2Cfg : ChartConfig :=
  { type := ChartType.bar_chart,
    data := { labels := ["x", "y"],
              datasets := [{ label := "u", data := [some 1, some 3] },
                           { label := "v", data := [some 3, some 1] }] } }

/-- Pie configuration with seven equal slices. -/
def c5PieCfg : ChartConfig :=
  { type := ChartType.pie_chart,
    data := { labels := ["a", "b", "c", "d", "e", "f", "g"],
              datasets := [{ label := "v", data := List.replicate 7 (some 1) }] } }

/-- Single-series bar configuration whose values are not percentages. -/
def c5BarCfg : ChartConfig :=
  { type := ChartType.bar_chart,
    data := { labels := ["x"], datasets := [{ label := "v", data := [some 5] }] } }

/-- Witness for claim C5 on concrete configurations: a two-series bar label
sum lands within 2/200 of 100, the seven-slice pie sum lands within 7/200 of
100, and the single-series bar is returned unchanged. -/
theorem claim5_percent_total_amended_witness :
    |labelTotal (applyPercentOfTotal c5Bar2Cfg).data.datasets 0 - 100| ≤
      c5Bar2Cfg.data.datasets.length / 200 ∧
    (∃ nd0, (applyPercentOfTotal c5PieCfg).data.datasets = nd0 :: [] ∧
      |(nd0.data.map (fun v => v.getD 0)).sum - 100| ≤
        ((List.replicate 7 (some (1 : ℚ))).length : ℚ) / 200) ∧
    applyPercentOfTotal c5BarCfg = c5BarCfg :=
  ⟨claim5_percent_total_amended.1 c5Bar2Cfg rfl (by decide) 0 (by decide)
      (by norm_num [labelTotal, entryAt, c5Bar2Cfg]),
   claim5_percent_total_amended.2.1 c5PieCfg
      { label := "v", data := List.replicate 7 (some 1) } [] rfl rfl
      (by norm_num [List.map_replicate, List.sum_replicate]),
   claim5_percent_total_amended.2.2 c5BarCfg rfl rfl⟩

/-- Counterexample to claim C5 as stated: the seven-slice pie normalises each
slice to 14.29 and the slice percentages sum to 100.03, which misses 100 by
0.03, outside the claimed 0.01 tolerance; and a single-series bar
configuration is not normalised at all, its series still sums to 5. -/
theorem claim5_percent_total_counterexample :
    applyPercentOfTotal c5PieCfg =
      { type := ChartType.pie_chart,
        data := { labels := ["a", "b", "c", "d", "e", "f", "g"],
                  datasets := [{ label := "v",
                                 data := List.replicate 7 (some (1429 / 100 : ℚ)),
                                 yAxisID := none }] },
        cards := [] } ∧
    ¬(|((List.replicate 7 (some (1429 / 100 : ℚ))).map (fun v => v.getD 0)).sum - 100| ≤
        1 / 100) ∧
    applyPercentOfTotal c5BarCfg = c5BarCfg ∧
    ((c5BarCfg.data.datasets.headD { label := "", data := [], yAxisID := none }).data.map
      (fun v => v.getD 0)).sum = 5 := by
  refine ⟨?_, ?_, ?_, ?_⟩
  · simp only [applyPercentOfTotal, c5PieCfg]
    rw [if_neg (by decide), if_pos (by decide)]
    norm_num [List.map_replicate, List.sum_replicate, round2, round_eq]
  · norm_num [List.map_replicate, List.sum_replicate]
    rw [abs_of_nonneg (by norm_num : (0 : ℚ) ≤ 3 / 100)]
    norm_num
  · simp only [applyPercentOfTotal]
    rw [if_neg (by decide), if_neg (by decide)]
  · norm_num [c5BarCfg]

end Askadb

namespace Askadb

lemma mem_dedupAux {α : Type} [DecidableEq α] (l : List α) :
    ∀ (seen : List α) (a : α), a ∈ dedupAux seen l ↔ a ∈ l ∧ a ∉ seen := by
  induction l with
  | nil =>
    intro seen a
    simp [dedupAux]
  | cons x xs ih =>
    intro seen a
    simp only [dedupAux]
    by_cases hx : x ∈ seen
    · rw [if_pos hx, ih]
      constructor
      · rintro ⟨ha, hs⟩
        exact ⟨List.mem_cons_of_mem x ha, hs⟩
      · rintro ⟨ha, hs⟩
        rcases List.mem_cons.mp ha with rfl | ha2
        · exact absurd hx hs
        · exact ⟨ha2, hs⟩
    · rw [if_neg hx]
      by_cases hax : a = x
      · subst hax
        simp [ih, List.mem_cons, hx]
      · simp only [List.mem_cons, hax, false_or]
        rw [ih]
        constructor
        · rintro ⟨ha, hs⟩
          refine ⟨ha, fun hmem => hs (List.mem_cons_of_mem x hmem)⟩
        · rintro ⟨ha, hs⟩
          refine ⟨ha, fun hmem => ?_⟩
          rcases List.mem_cons.mp hmem with h1 | h2
          · exact hax h1
          · exact hs h2

lemma nodup_dedupAux {α : Type} [DecidableEq α] (l : List α) :
    ∀ seen : List α, (dedupAux seen l).Nodup := by
  induction l with
  | nil => intro seen; simp [dedupAux]
  | cons x xs ih =>
    intro seen
    simp only [dedupAux]
    by_cases hx : x ∈ seen
    · rw [if_pos hx]
      exact ih seen
    · rw [if_neg hx]
      refine List.Nodup.cons ?_ (ih (x :: seen))
      intro hmem
      exact ((mem_dedupAux xs (x :: seen) x).mp hmem).2 (List.mem_cons_self x seen)

lemma dedupAux_append_singleton {α : Type} [DecidableEq α] (l : List α) (x : α) :
    ∀ seen : List α, dedupAux seen (l ++ [x]) =
      dedupAux seen l ++ (if x ∈ seen ∨ x ∈ l then [] else [x]) := by
  induction l with
  | nil =>
    intro seen
    by_cases hx : x ∈ seen <;> simp [dedupAux, hx]
  | cons y ys ih =>
    intro seen
    simp only [List.cons_append, dedupAux, List.append_eq]
    by_cases hy : y ∈ seen
    · rw [if_pos hy, if_pos hy, ih seen]
      by_cases hx1 : x ∈ seen ∨ x ∈ ys
      · rw [if_pos hx1, if_pos (by rcases hx1 with h | h; exact Or.inl h; exact Or.inr (List.mem_cons_of_mem y h))]
      · by_cases hxy : x = y
        · subst hxy
          rw [if_neg hx1, if_pos (Or.inr (List.mem_cons_self x ys))]
          exact absurd hy (fun hc => hx1 (Or.inl hc))
        · rw [if_neg hx1, if_neg ?_]
          rintro (h | h)
          · exact hx1 (Or.inl h)
          · rcases List.mem_cons.mp h with h2 | h2
            · exact hxy h2
            · exact hx1 (Or.inr h2)
    · rw [if_neg hy, if_neg hy, ih (y :: seen), List.cons_append]
      by_cases hx1 : x ∈ y :: seen ∨ x ∈ ys
      · rw [if_pos hx1, if_pos ?_]
        rcases hx1 with h | h
        · rcases List.mem_cons.mp h with h2 | h2
          · exact Or.inr (h2 ▸ List.mem_cons_self y ys)
          · exact Or.inl h2
        · exact Or.inr (List.mem_cons_of_mem y h)
      · rw [if_neg hx1, if_neg ?_]
        rintro (h | h)
        · exact hx1 (Or.inl (List.mem_cons_of_mem y h))
        · rcases List.mem_cons.mp h with h2 | h2
          · exact hx1 (Or.inl (h2 ▸ List.mem_cons_self y seen))
          · exact hx1 (Or.inr h2)

lemma mem_dedupFirst {α : Type} [DecidableEq α] (l : List α) (a : α) :
    a ∈ dedupFirst l ↔ a ∈ l := by
  rw [dedupFirst, mem_dedupAux]
  simp

lemma nodup_dedupFirst {α : Type} [DecidableEq α] (l : List α) : (dedupFirst l).Nodup :=
  nodup_dedupAux l []

lemma dedupFirst_append_singleton {α : Type} [DecidableEq α] (l : List α) (x : α) :
    dedupFirst (l ++ [x]) =
      (if x ∈ l then dedupFirst l else dedupFirst l ++ [x]) := by
  rw [dedupFirst, dedupAux_append_singleton l x []]
  by_cases hx : x ∈ l
  · rw [if_pos (by simp [hx]), if_pos hx]
    simp [dedupFirst]
  · rw [if_neg (by simp [hx]), if_neg hx]
    rfl

/-- Accumulator semantics of one aggregation group: fold the rows whose key
is k, each numeric summand added to the falsy-guarded read-back of the
running total, a NaN summand replacing the total with NaN. -/
def groupFold (data : List Row) (C V : String) (k : String) : Option ℚ :=
  (data.filter (fun r => keyOfRow C r == k)).foldl
    (fun acc r => (valOfRow V r).map (fun x => acc.getD 0 + x)) (some 0)

lemma updateTotals_map (ks : List String) (hnd : ks.Nodup) (g : String → Option ℚ)
    (key : String) (v : Option ℚ) :
    updateTotals (ks.map (fun k => (k, g k))) key v =
      (if key ∈ ks then
        ks.map (fun k => (k, if k = key then v.map (fun x => (g key).getD 0 + x) else g k))
      else ks.map (fun k => (k, g k)) ++ [(key, v.map (fun x => (0 : ℚ) + x))]) := by
  induction ks with
  | nil => simp [updateTotals]
  | cons k0 ks ih =>
    rw [List.nodup_cons] at hnd
    obtain ⟨hk0, hnd2⟩ := hnd
    simp only [List.map_cons, updateTotals]
    by_cases hek : k0 = key
    · subst hek
      rw [if_pos (beq_self_eq_true k0), if_pos (List.mem_cons_self k0 ks), if_pos rfl]
      congr 1
      apply List.map_congr_left
      intro k hk
      rw [if_neg (fun hc : k = k0 => hk0 (hc ▸ hk))]
    · rw [if_neg (by simp only [beq_iff_eq]; exact hek), ih hnd2]
      by_cases hmem : key ∈ ks
      · rw [if_pos hmem, if_pos (List.mem_cons_of_mem k0 hmem), if_neg hek]
      · rw [if_neg hmem, if_neg ?_]
        · rfl
        · intro hc
          rcases List.mem_cons.mp hc with h | h
          · exact hek h.symm
          · exact hmem h

lemma groupFold_append (data : List Row) (r : Row) (C V : String) (k : String) :
    groupFold (data ++ [r]) C V k =
      (if keyOfRow C r == k then
        (valOfRow V r).map (fun x => (groupFold data C V k).getD 0 + x)
      else groupFold data C V k) := by
  by_cases hk : keyOfRow C r == k
  · rw [if_pos hk]
    rw [groupFold, List.filter_append, List.filter_cons]
    simp only [hk, if_pos, List.filter_nil, List.foldl_append, List.foldl_cons, List.foldl_nil]
    rfl
  · rw [if_neg hk]
    rw [groupFold, List.filter_append, List.filter_cons]
    simp only [hk, List.filter_nil, List.foldl_append, List.foldl_nil]
    rfl

lemma groupFold_of_not_mem (data : List Row) (C V : String) (k : String)
    (h : k ∉ data.map (keyOfRow C)) : groupFold data C V k = some 0 := by
  rw [groupFold, List.filter_eq_nil_iff.mpr, List.foldl_nil]
  intro r hr
  simp only [beq_iff_eq]
  intro hc
  exact h (hc ▸ List.mem_map_of_mem (keyOfRow C) hr)

lemma aggTotals_spec (data : List Row) (C V : String) :
    aggTotals data C V =
      (dedupFirst (data.map (keyOfRow C))).map (fun k => (k, groupFold data C V k)) := by
  induction data using List.reverseRecOn with
  | nil => rfl
  | append_singleton pre r ih =>
    rw [aggTotals, List.foldl_append, List.foldl_cons, List.foldl_nil]
    rw [show pre.foldl (fun t row => updateTotals t (keyOfRow C row) (valOfRow V row)) [] =
      aggTotals pre C V from rfl]
    rw [ih, updateTotals_map _ (nodup_dedupFirst _) _ _ _]
    rw [List.map_append, List.map_singleton, dedupFirst_append_singleton]
    by_cases hmem : keyOfRow C r ∈ pre.map (keyOfRow C)
    · rw [if_pos ((mem_dedupFirst _ _).mpr hmem), if_pos hmem]
      apply List.map_congr_left
      intro k hk
      rw [groupFold_append]
      by_cases hek : k = keyOfRow C r
      · subst hek
        rw [if_pos rfl, if_pos (by simp)]
      · rw [if_neg hek, if_neg (by simp only [beq_iff_eq]; exact Ne.symm hek)]
    · rw [if_neg (fun hc => hmem ((mem_dedupFirst _ _).mp hc)), if_neg hmem]
      rw [List.map_append]
      congr 1
      · apply List.map_congr_left
        intro k hk
        rw [groupFold_append]
        have hek : k ≠ keyOfRow C r := fun hc => hmem (hc ▸ (mem_dedupFirst _ _).mp hk)
        rw [if_neg (by simp only [beq_iff_eq]; exact Ne.symm hek)]
      · simp only [List.map_cons, List.map_nil]
        rw [groupFold_append, if_pos (by simp), groupFold_of_not_mem pre C V _ hmem]
        rfl

lemma foldl_val_sum (V : String) (rows : List Row) (h : ∀ r ∈ rows, (valOfRow V r).isSome) :
    ∀ a : ℚ, rows.foldl (fun acc r => (valOfRow V r).map (fun x => acc.getD 0 + x)) (some a) =
      some (a + (rows.map (fun r => (valOfRow V r).getD 0)).sum) := by
  induction rows with
  | nil =>
    intro a
    simp
  | cons r rows ih =>
    intro a
    obtain ⟨x, hx⟩ := Option.isSome_iff_exists.mp (h r (List.mem_cons_self r rows))
    rw [List.foldl_cons]
    have hstep : (valOfRow V r).map (fun y => (some a).getD 0 + y) = some (a + x) := by
      rw [hx]
      simp
    rw [hstep, ih (fun r2 hr2 => h r2 (List.mem_cons_of_mem _ hr2)) (a + x),
      List.map_cons, List.sum_cons, hx]
    simp [add_assoc]

/-- Claim C2 as amended: the emitted labels are the distinct string-form
category keys in first-seen insertion order; each total is the falsy-guarded
read-back of the group accumulator, in which a non-numeric value-column entry
resets the group to NaN (read back as 0) and later numeric rows restart the
sum; and when every value-column entry of the dataset coerces to a number
(numbers, numeric strings, booleans, absent entries as 0) the total per
distinct key equals the sum of the coerced values over the rows sharing that
key, as the original claim states. -/
theorem claim2_aggregate_amended (data : List Row) (C V : String) :
    (aggregateByCategory data C V).1 = dedupFirst (data.map (keyOfRow C)) ∧
    (aggregateByCategory data C V).2 =
      (dedupFirst (data.map (keyOfRow C))).map (fun k => (groupFold data C V k).getD 0) ∧
    ((∀ r ∈ data, (valOfRow V r).isSome) →
      (aggregateByCategory data C V).2 =
        (dedupFirst (data.map (keyOfRow C))).map (fun k =>
          ((data.filter (fun r => keyOfRow C r == k)).map
            (fun r => (valOfRow V r).getD 0)).sum)) := by
  refine ⟨?_, ?_, ?_⟩
  · simp only [aggregateByCategory]
    rw [aggTotals_spec]
    simp [List.map_map, Function.comp_def]
  · simp only [aggregateByCategory]
    rw [aggTotals_spec]
    simp [List.map_map, Function.comp_def]
  · intro h
    simp only [aggregateByCategory]
    rw [aggTotals_spec]
    simp only [List.map_map, Function.comp_def]
    apply List.map_congr_left
    intro k hk
    rw [groupFold, foldl_val_sum V _ (fun r hr => h r (List.mem_of_mem_filter hr)) 0]
    simp

/-- Dataset whose value column is numeric in every row. -/
def c2GoodData : List Row :=
  [[("c", Value.str "a"), ("v", Value.num 2)],
   [("c", Value.str "b"), ("v", Value.num 3)],
   [("c", Value.str "a"), ("v", Value.num 4)]]

/-- Witness for claim C2 on an all-numeric dataset. -/
theorem claim2_aggregate_amended_witness :
    (∀ r ∈ c2GoodData, (valOfRow "v" r).isSome) ∧
    (aggregateByCategory c2GoodData "c" "v").2 =
      (dedupFirst (c2GoodData.map (keyOfRow "c"))).map (fun k =>
        ((c2GoodData.filter (fun r => keyOfRow "c" r == k)).map
          (fun r => (valOfRow "v" r).getD 0)).sum) :=
  ⟨by decide, (claim2_aggregate_amended c2GoodData "c" "v").2.2 (by decide)⟩

/-- Dataset in which one row of group a has the non-numeric value x. -/
def c2Data : List Row :=
  [[("c", Value.str "a"), ("v", Value.num 2)],
   [("c", Value.str "a"), ("v", Value.str "x")]]

/-- Counterexample to claim C2 as stated: with rows a/2 and a/x the
per-group sum under coerce-non-numeric-to-0 is 2, but the code's NaN
propagation makes the stored total NaN, emitted as 0. -/
theorem claim2_aggregate_counterexample :
    aggregateByCategory c2Data "c" "v" = (["a"], [0]) ∧
    ((c2Data.filter (fun r => keyOfRow "c" r == "a")).map
      (fun r => (valOfRow "v" r).getD 0)).sum = 2 ∧
    (0 : ℚ) ≠ 2 := by
  refine ⟨by rfl, ?_, by norm_num⟩
  simp +decide [c2Data, keyOfRow, valOfRow]
  have h1 : (jsNumberOfValue (rowGet [("c", Value.str "a"), ("v", Value.num 2)] "v")).getD 0 =
      (2 : ℚ) := rfl
  have h2 : (jsNumberOfValue (rowGet [("c", Value.str "a"), ("v", Value.str "x")] "v")).getD 0 =
      (0 : ℚ) := rfl
  rw [h1, h2]
  norm_num

end Askadb
